import Mathlib

/-!
Shallow embedding of `scrapling_server.py` (Scrapling Control Panel).

The program is a single-file HTTP control panel: a scrape operation
`run_scrape` dispatching to one of three external fetchers, an in-memory
history list `SCRAPE_HISTORY`, and an HTTP handler (`do_GET` / `do_POST`)
over a handful of JSON routes.

Modelling conventions:
- Python exceptions are `Except Exn`; `Exn` carries the exception class
  name and message, and `errString` is the `f-string` `type(e).__name__: str(e)`
  used at the `except` site.
- The external Scrapling library (fetchers and the returned page object)
  is an environment `Env` of oracle functions; a fetch either raises, or
  returns a page, or returns a falsy value (`none`, the `if page:` else
  branch).  Page methods (`css`, `get_all_text`) may themselves raise,
  which models exceptions thrown during extraction.  The `hasattr`
  guards in the source are modelled as always true: the page model has
  every attribute the code probes for.
- Python strings are Lean `String`s; slicing `s[:n]` is by code points
  in both languages (`pyStrTake`).
- Wall-clock values (`datetime.now().isoformat()`, the `timing_ms`
  computation) are threaded in as parameters `now` / `t`; note the
  source initialises `timing_ms` to `0` and only overwrites it on the
  paths that reach line 150.
-/

/-- One Python code-point slice `s[:n]`. -/
def pyStrTake (s : String) (n : Nat) : String := ⟨s.data.take n⟩

/-- Python `str.strip()`: remove leading and trailing whitespace. -/
def pyStrip (s : String) : String :=
  ⟨((s.data.dropWhile Char.isWhitespace).reverse.dropWhile Char.isWhitespace).reverse⟩

/-- Numeric value of a digit string. -/
def digitsVal (l : List Char) : Nat :=
  l.foldl (fun a c => a * 10 + (c.toNat - ('0').toNat)) 0

/-- Python `int(s)` on a string: strip whitespace, optional sign, digits;
anything else raises `ValueError` (modelled as `none`).  (Python also
accepts `_` digit separators and non-ASCII digits; those corners are not
exercised here.) -/
def pyInt? (s : String) : Option Int :=
  let cs := ((s.data.dropWhile Char.isWhitespace).reverse.dropWhile Char.isWhitespace).reverse
  match cs with
  | '-' :: rest =>
      if rest ≠ [] ∧ rest.all Char.isDigit then some (-(digitsVal rest : Int)) else none
  | '+' :: rest =>
      if rest ≠ [] ∧ rest.all Char.isDigit then some (digitsVal rest : Int) else none
  | rest =>
      if rest ≠ [] ∧ rest.all Char.isDigit then some (digitsVal rest : Int) else none

/-- Python tail slice `l[-limit:]` for an arbitrary integer `limit`
(the start index is `-limit`; negative start indices count from the end
and clamp at `0`, non-negative start indices drop from the front).
In particular `l[-0:] = l[0:] = l`. -/
def pyTail {α : Type} (l : List α) (limit : Int) : List α :=
  let idx : Int := -limit
  if idx < 0 then l.drop (max 0 ((l.length : Int) + idx)).toNat
  else l.drop idx.toNat

/-- A Python exception: class name and message. -/
structure Exn where
  name : String
  msg : String
  deriving DecidableEq, Repr

/-- The string stored in `result["error"]` at the `except` site:
`f"\x7btype(e).__name__\x7d: \x7bstr(e)\x7d"`. -/
def errString (e : Exn) : String := e.name ++ ": " ++ e.msg

/-- An element returned by `page.css(...)`: its `.text` and its
`.attrib` mapping. -/
structure Element where
  text : String
  attribs : List (String × String)
  deriving DecidableEq, Repr

/-- `el.attrib.get(key, default)`. -/
def attribGet (e : Element) (k d : String) : String :=
  match e.attribs.lookup k with
  | some v => v
  | none => d

/-- The page object the external library returns.  `css` and
`get_all_text` may raise (exceptions during extraction); `bodyStr` is
`str(page.body)`. -/
structure Page where
  css : String → Except Exn (List Element)
  get_all_text : Except Exn String
  bodyStr : String

/-- The external library: one fetch oracle per fetcher.  A fetch either
raises (`Except.error`), returns a falsy page (`Except.ok none`, the
`else` of `if page:`), or returns a page. -/
structure Env where
  basicFetch : String → Except Exn (Option Page)
  stealthyFetch : String → Except Exn (Option Page)
  playwrightFetch : String → Except Exn (Option Page)

/-- The fetcher dispatch of `run_scrape` lines 82-93: `none` means the
final `else` (unknown fetcher type) was reached. -/
def fetchFor (env : Env) (fetcher_type url : String) : Option (Except Exn (Option Page)) :=
  if fetcher_type = "basic" then some (env.basicFetch url)
  else if fetcher_type = "stealthy" then some (env.stealthyFetch url)
  else if fetcher_type = "playwright" then some (env.playwrightFetch url)
  else none

/-- A `\x7b"href": ..., "text": ...\x7d` record of extract mode `links`. -/
structure LinkOut where
  href : String
  text : String
  deriving DecidableEq, Repr

/-- A `\x7b"src": ..., "alt": ...\x7d` record of extract mode `images`. -/
structure ImageOut where
  src : String
  alt : String
  deriving DecidableEq, Repr

/-- The `data` dict built by `run_scrape`: `status` is always present,
every other key only for the matching extract mode (`none` = key
absent). -/
structure Data where
  status : String
  title : Option String
  text_length : Option Nat
  html_length : Option Nat
  link_count : Option Nat
  image_count : Option Nat
  links : Option (List LinkOut)
  images : Option (List ImageOut)
  text : Option String
  elements : Option (List String)
  deriving DecidableEq, Repr

/-- `data = \x7b"status": "success"\x7d` before any extract branch runs. -/
def dataInit : Data :=
  { status := "success", title := none, text_length := none, html_length := none,
    link_count := none, image_count := none, links := none, images := none,
    text := none, elements := none }

/-- Python truthiness of the optional `selectors` argument (a string or
`None`): `None` and `""` are falsy. -/
def truthyStr : Option String → Bool
  | none => false
  | some s => !s.isEmpty

/-- `selectors` as passed to `page.css` (guarded by `truthyStr`, so the
`none` case is unreachable when used). -/
def selOf : Option String → String
  | none => ""
  | some s => s

/-- The extraction block of `run_scrape` lines 98-140, run on a truthy
page.  Sequential `match`es on fallible page methods mirror the source
statement order inside the `try`. -/
def extractData (p : Page) (selectors : Option String) (extract_type : String) :
    Except Exn Data :=
  if extract_type = "full" then
    match p.css "title" with
    | .error e => .error e
    | .ok title_els =>
      let title := match title_els with
        | [] => ""
        | el :: _ => el.text
      match p.get_all_text with
      | .error e => .error e
      | .ok allText =>
        match p.css "a[href]" with
        | .error e => .error e
        | .ok links =>
          match p.css "img" with
          | .error e => .error e
          | .ok imgs =>
            .ok { dataInit with
              title := some title,
              text_length := some allText.length,
              html_length := some p.bodyStr.length,
              link_count := some (if links = [] then 0 else links.length),
              image_count := some (if imgs = [] then 0 else imgs.length) }
  else if extract_type = "links" then
    match p.css "a[href]" with
    | .error e => .error e
    | .ok links =>
      let link_list :=
        if links = [] then []
        else (links.take 50).map (fun a =>
          ({ href := attribGet a "href" "", text := pyStrTake a.text 100 } : LinkOut))
      .ok { dataInit with links := some link_list }
  else if extract_type = "images" then
    match p.css "img" with
    | .error e => .error e
    | .ok imgs =>
      let img_list :=
        if imgs = [] then []
        else (imgs.take 50).map (fun img =>
          ({ src := attribGet img "src" "", alt := pyStrTake (attribGet img "alt" "") 100 } : ImageOut))
      .ok { dataInit with images := some img_list }
  else if extract_type = "text" then
    match p.get_all_text with
    | .error e => .error e
    | .ok allText => .ok { dataInit with text := some (pyStrTake allText 5000) }
  else if extract_type = "css" ∧ truthyStr selectors = true then
    match p.css (selOf selectors) with
    | .error e => .error e
    | .ok elements =>
      let el_list :=
        if elements = [] then []
        else (elements.take 30).map (fun el => pyStrTake el.text 200)
      .ok { dataInit with elements := some el_list }
  else
    .ok dataInit

/-- Everything inside the `try` after a successful fetcher dispatch:
fetch outcome `fo`, then `if page:` (`.ok none` is the falsy page) and
extraction. -/
def scrapeBody (fo : Except Exn (Option Page)) (selectors : Option String)
    (extract_type : String) : Except Exn (Option Data) :=
  match fo with
  | .error e => .error e
  | .ok none => .ok none
  | .ok (some p) =>
    match extractData p selectors extract_type with
    | .error e => .error e
    | .ok d => .ok (some d)

/-- The `result` record of `run_scrape`. -/
structure Result where
  success : Bool
  url : String
  fetcher : String
  timestamp : String
  data : Option Data
  error : Option String
  timing_ms : Nat
  deriving DecidableEq, Repr

/-- `run_scrape` (lines 67-152).  `now` is `datetime.now().isoformat()`,
`t` the elapsed-milliseconds value computed at line 150, `history` the
global `SCRAPE_HISTORY`; the pair is (returned result, history after the
call).  The unknown-fetcher branch `return`s at line 93, before both the
`timing_ms` update and the `SCRAPE_HISTORY.append` at lines 150-151, so
there `timing_ms` stays `0` and the history is untouched. -/
def run_scrape (env : Env) (now : String) (t : Nat) (url fetcher_type : String)
    (selectors : Option String) (extract_type : String) (history : List Result) :
    Result × List Result :=
  let base : Result :=
    { success := false, url := url, fetcher := fetcher_type, timestamp := now,
      data := none, error := none, timing_ms := 0 }
  match fetchFor env fetcher_type url with
  | none =>
      ({ base with error := some ("Unknown fetcher type: " ++ fetcher_type) }, history)
  | some fo =>
      let r :=
        match scrapeBody fo selectors extract_type with
        | .error e => { base with error := some (errString e), timing_ms := t }
        | .ok none => { base with error := some "Page returned empty response", timing_ms := t }
        | .ok (some d) => { base with success := true, data := some d, timing_ms := t }
      (r, history ++ [r])

/-- A parsed JSON value (`json.loads`).  Numbers are modelled as
integers; the floats of JSON are not exercised by any route here. -/
inductive JVal where
  | str (s : String)
  | num (n : Int)
  | bool (b : Bool)
  | null
  | arr (l : List JVal)
  | obj (l : List (String × JVal))

/-- Python truthiness of a JSON value (`if not url:`). -/
def jTruthy : JVal → Bool
  | .str s => !s.isEmpty
  | .num n => !(n == 0)
  | .bool b => b
  | .null => false
  | .arr l => !l.isEmpty
  | .obj l => !l.isEmpty

/-- `data.get(key, default)` on a parsed JSON object. -/
def pyGet (d : List (String × JVal)) (k : String) (dflt : JVal) : JVal :=
  match d.lookup k with
  | some v => v
  | none => dflt

/-- The string content of a JSON value.  The handler passes
`data.get(...)` values straight into `run_scrape`; the model keeps
`run_scrape` over strings, and coerces non-string scalars to `""`.  For
a non-string `fetcher` both the source and the model end in the
unknown-fetcher branch (Python `==` between a non-string and a string
literal is `False`); only the text interpolated into the error message
differs. -/
def asStr : JVal → String
  | .str s => s
  | _ => ""

/-- `url.strip()` in the batch loop: raises `AttributeError` when the
list entry is not a string. -/
def jStrip : JVal → Except Exn String
  | .str s => .ok (pyStrip s)
  | _ => .error { name := "AttributeError", msg := "object has no attribute strip" }

/-- `data.get("urls", [])` followed by the slice-and-iterate
`urls[:10]`: a JSON array iterates its entries, a JSON string iterates
its characters as one-character strings (Python string slicing and
iteration), anything else raises `TypeError` at the slice. -/
def urlsList : JVal → Except Exn (List JVal)
  | .arr l => .ok l
  | .str s => .ok (s.data.map (fun c => JVal.str (String.mk [c])))
  | _ => .error { name := "TypeError", msg := "object is not subscriptable" }

/-- The mutable server globals a request can read or write: only
`SCRAPE_HISTORY`. -/
structure ServerState where
  history : List Result
  deriving DecidableEq, Repr

/-- The response of a `do_GET` branch.  `status` abstracts the
`/api/status` payload to the one state-dependent field
(`history_count`); the library-availability probe and uptime are
process-environment I/O, not modelled. -/
inductive GetResp where
  | ui
  | status (history_count : Nat)
  | history (hist : List Result) (total : Nat)
  | presets
  | cleared
  | notFound
  deriving DecidableEq, Repr

/-- HTTP status code sent with each `do_GET` response. -/
def GetResp.statusCode : GetResp → Nat
  | .notFound => 404
  | _ => 200

/-- `int(params.get("limit", [50])[0])` at line 248: the query value is
parsed with `int(...)`, which raises `ValueError` on a non-integer
string; an absent key falls back to the integer `50`.  (`parse_qs`
never produces an empty value list for a present key.) -/
def getLimit (params : List (String × List String)) : Except Exn Int :=
  match params.lookup "limit" with
  | some (v :: _) =>
      match pyInt? v with
      | some n => .ok n
      | none => .error (Exn.mk "ValueError" ("invalid literal for int() with base 10: " ++ v))
  | _ => .ok 50

/-- `ScraplingHandler.do_GET` (lines 224-262): route dispatch on the
parsed path, `params` the `parse_qs` query dictionary.  The result is
the response together with the globals after the request; an
`Except.error` is an exception escaping the handler method. -/
def do_GET (path : String) (params : List (String × List String))
    (st : ServerState) : Except Exn (GetResp × ServerState) :=
  if path = "/" ∨ path = "/index.html" then .ok (.ui, st)
  else if path = "/api/status" then .ok (.status st.history.length, st)
  else if path = "/api/history" then
    match getLimit params with
    | .error e => .error e
    | .ok limit => .ok (.history (pyTail st.history limit) st.history.length, st)
  else if path = "/api/presets" then .ok (.presets, st)
  else if path = "/api/clear-history" then .ok (.cleared, { history := [] })
  else .ok (.notFound, st)

/-- The response of a `do_POST` branch. -/
inductive PostResp where
  | invalidJson
  | urlRequired
  | scrapeResult (r : Result)
  | batchResults (rs : List Result)
  | notFound
  deriving DecidableEq, Repr

/-- HTTP status code sent with each `do_POST` response. -/
def PostResp.statusCode : PostResp → Nat
  | .invalidJson => 400
  | .urlRequired => 400
  | .notFound => 404
  | _ => 200

/-- The `for url in urls[:10]` loop of `/api/batch-scrape` (lines
293-296), already restricted to the slice.  `meta i` supplies the
wall-clock pair (`timestamp`, `timing_ms`) of the `i`-th `run_scrape`
call; `k` is the index of the first entry.  `url.strip()` may raise. -/
def batchLoop (env : Env) (meta : Nat → String × Nat) (fetcher extract_type : String) :
    List JVal → Nat → ServerState → Except Exn (List Result × ServerState)
  | [], _, st => .ok ([], st)
  | u :: rest, k, st =>
    match jStrip u with
    | .error e => .error e
    | .ok s =>
      let pr := run_scrape env (meta k).1 (meta k).2 s fetcher none extract_type st.history
      match batchLoop env meta fetcher extract_type rest (k + 1) { history := pr.2 } with
      | .error e => .error e
      | .ok (rs, st') => .ok (pr.1 :: rs, st')

/-- `ScraplingHandler.do_POST` (lines 264-300).  `body` is the outcome
of `json.loads` on the request body: `none` is a `JSONDecodeError`
(answered with 400 before route dispatch), `some data` the parsed
object.  (A JSON body that is valid but not an object would make
`data.get` raise; no modelled claim feeds one.) -/
def do_POST (env : Env) (meta : Nat → String × Nat) (path : String)
    (body : Option (List (String × JVal))) (st : ServerState) :
    Except Exn (PostResp × ServerState) :=
  match body with
  | none => .ok (.invalidJson, st)
  | some data =>
    if path = "/api/scrape" then
      let url := pyGet data "url" (.str "")
      if jTruthy url = false then .ok (.urlRequired, st)
      else
        let fetcher := asStr (pyGet data "fetcher" (.str "basic"))
        let selectors := asStr (pyGet data "selectors" (.str ""))
        let extract_type := asStr (pyGet data "extract_type" (.str "full"))
        let pr := run_scrape env (meta 0).1 (meta 0).2 (asStr url) fetcher
          (some selectors) extract_type st.history
        .ok (.scrapeResult pr.1, { history := pr.2 })
    else if path = "/api/batch-scrape" then
      match urlsList (pyGet data "urls" (.arr [])) with
      | .error e => .error e
      | .ok urls =>
        let fetcher := asStr (pyGet data "fetcher" (.str "basic"))
        let extract_type := asStr (pyGet data "extract_type" (.str "full"))
        match batchLoop env meta fetcher extract_type (urls.take 10) 0 st with
        | .error e => .error e
        | .ok (rs, st') => .ok (.batchResults rs, st')
    else .ok (.notFound, st)

/-! Helper lemmas. -/

/-- The result record built by `run_scrape` never reads `SCRAPE_HISTORY`:
only the returned history depends on it. -/
theorem run_scrape_fst_hist_irrel (env : Env) (now : String) (t : Nat)
    (url ft : String) (sel : Option String) (et : String) (h1 h2 : List Result) :
    (run_scrape env now t url ft sel et h1).1 = (run_scrape env now t url ft sel et h2).1 := by
  unfold run_scrape
  cases fetchFor env ft url <;> rfl

/-- `pyTail` on the empty list is empty for every limit. -/
theorem pyTail_nil {α : Type} (n : Int) : pyTail ([] : List α) n = [] := by
  simp [pyTail]

/-- `l[-0:]` is the whole list. -/
theorem pyTail_zero {α : Type} (l : List α) : pyTail l 0 = l := by
  simp [pyTail]

/-- `l[-N:]` for positive `N` drops all but the last `N` elements. -/
theorem pyTail_pos {α : Type} (l : List α) (N : Nat) (hN : 0 < N) :
    pyTail l (N : Int) = l.drop (l.length - N) := by
  unfold pyTail
  have hidx : (-(N : Int) < 0) := by omega
  rw [if_pos hidx]
  congr 1
  omega

/-- A Python slice `s[:n]` has at most `n` characters. -/
theorem pyStrTake_length_le (s : String) (n : Nat) : (pyStrTake s n).length ≤ n := by
  simp only [pyStrTake, String.length, List.length_take]
  omega

/-! Concrete data used by the witnesses. -/

/-- A sample anchor element. -/
def sampleLink : Element :=
  { text := "Example Domain", attribs := [("href", "http://example.com/a")] }

/-- A sample image element. -/
def sampleImg : Element :=
  { text := "", attribs := [("src", "/logo.png"), ("alt", "logo")] }

/-- A sample page the fetch oracles can return. -/
def samplePage : Page :=
  { css := fun sel =>
      if sel = "title" then .ok [{ text := "Example", attribs := [] }]
      else if sel = "a[href]" then .ok [sampleLink]
      else if sel = "img" then .ok [sampleImg]
      else .ok [{ text := "element text", attribs := [] }],
    get_all_text := .ok "Example Domain. More text.",
    bodyStr := "<html><body>x</body></html>" }

/-- An environment in which every fetcher returns `samplePage`. -/
def sampleEnv : Env :=
  { basicFetch := fun _ => .ok (some samplePage),
    stealthyFetch := fun _ => .ok (some samplePage),
    playwrightFetch := fun _ => .ok (some samplePage) }

/-- An environment in which the basic fetcher raises. -/
def throwEnv : Env :=
  { basicFetch := fun _ => .error (Exn.mk "ConnectionError" "boom"),
    stealthyFetch := fun _ => .ok none,
    playwrightFetch := fun _ => .ok none }

/-- A fixed wall-clock oracle for the handler model. -/
def sampleMeta : Nat → String × Nat := fun _ => ("2026-10-12T00:00:00", 1)

/-- A sample history entry. -/
def sampleResult : Result :=
  { success := false, url := "http://old", fetcher := "basic",
    timestamp := "2026-10-11T00:00:00", data := none,
    error := some "ConnectionError: boom", timing_ms := 3 }

/-- Shared catch property: when its try-block body raises `e`,
`run_scrape` records `errString e` and leaves `success = false`. -/
theorem run_scrape_catch (env : Env) (now : String) (t : Nat)
    (url ft : String) (sel : Option String) (et : String) (hist : List Result)
    (fo : Except Exn (Option Page)) (e : Exn)
    (hf : fetchFor env ft url = some fo) (hb : scrapeBody fo sel et = .error e) :
    (run_scrape env now t url ft sel et hist).1.success = false ∧
    (run_scrape env now t url ft sel et hist).1.error = some (errString e) := by
  unfold run_scrape
  rw [hf]
  simp [hb]

/-! Claims. -/

/-- C1: for every input, `run_scrape` returns a result record and never
raises to its caller; any exception thrown during fetching or extraction
is caught and stored as a string in the result's `error` field, with
`success = false`.  (`run_scrape` is a total function of its inputs;
`success` holds exactly when no error string was recorded, and whenever
the try-block body raises `e`, the record carries
`errString e` and `success = false`.) -/
theorem C1_run_scrape_catches (env : Env) (now : String) (t : Nat)
    (url ft : String) (sel : Option String) (et : String) (hist : List Result) :
    (((run_scrape env now t url ft sel et hist).1.success = true ↔
        (run_scrape env now t url ft sel et hist).1.error = none) ∧
      ∀ fo e, fetchFor env ft url = some fo → scrapeBody fo sel et = .error e →
        (run_scrape env now t url ft sel et hist).1.success = false ∧
        (run_scrape env now t url ft sel et hist).1.error = some (errString e)) := by
  constructor
  · unfold run_scrape
    cases hf : fetchFor env ft url with
    | none => simp
    | some fo =>
      cases hb : scrapeBody fo sel et with
      | error e => simp [hb]
      | ok od => cases od <;> simp [hb]
  · intro fo e hf hb
    exact run_scrape_catch env now t url ft sel et hist fo e hf hb

/-- Witness for C1 at a concrete throwing environment. -/
theorem C1_witness :
    (run_scrape throwEnv "ts" 7 "http://x" "basic" none "full" []).1.success = false ∧
    (run_scrape throwEnv "ts" 7 "http://x" "basic" none "full" []).1.error =
      some "ConnectionError: boom" := by
  have h := (C1_run_scrape_catches throwEnv "ts" 7 "http://x" "basic" none "full" []).2
    (Except.error (Exn.mk "ConnectionError" "boom")) (Exn.mk "ConnectionError" "boom") rfl rfl
  exact ⟨h.1, h.2⟩

/-- C2 counterexample: with an unrecognised fetcher name, `run_scrape`
produces a result record (here with its error field set) but returns at
line 93 before the `SCRAPE_HISTORY.append` at line 151, so the history
stays empty — the record is not appended. -/
theorem C2_counterexample :
    (run_scrape sampleEnv "ts" 5 "http://x" "bogus" none "full" []).1.error =
      some "Unknown fetcher type: bogus" ∧
    (run_scrape sampleEnv "ts" 5 "http://x" "bogus" none "full" []).2 = [] :=
  ⟨rfl, rfl⟩

/-- C2 amended: every result produced by a recognised fetcher name
(`basic`, `stealthy`, `playwright`) — including failing ones — is
appended to `SCRAPE_HISTORY` before being returned, and nothing already
in the history is evicted; a result for an unrecognised fetcher name is
returned without being appended, leaving the history unchanged. -/
theorem C2_amended_append (env : Env) (now : String) (t : Nat)
    (url ft : String) (sel : Option String) (et : String) (hist : List Result) :
    ((ft = "basic" ∨ ft = "stealthy" ∨ ft = "playwright") →
      (run_scrape env now t url ft sel et hist).2 =
        hist ++ [(run_scrape env now t url ft sel et hist).1]) ∧
    (ft ≠ "basic" → ft ≠ "stealthy" → ft ≠ "playwright" →
      (run_scrape env now t url ft sel et hist).2 = hist) := by
  constructor
  · rintro (rfl | rfl | rfl) <;> rfl
  · intro h1 h2 h3
    simp [run_scrape, fetchFor, h1, h2, h3]

/-- Witness for C2 amended: appended for a known fetcher, untouched for
an unknown one. -/
theorem C2_amended_witness :
    (run_scrape sampleEnv "ts" 5 "http://x" "basic" none "full" []).2 =
      [] ++ [(run_scrape sampleEnv "ts" 5 "http://x" "basic" none "full" []).1] ∧
    (run_scrape sampleEnv "ts" 5 "http://y" "bogus" none "full" []).2 = [] :=
  ⟨(C2_amended_append sampleEnv "ts" 5 "http://x" "basic" none "full" []).1 (Or.inl rfl),
   (C2_amended_append sampleEnv "ts" 5 "http://y" "bogus" none "full" []).2
     (by decide) (by decide) (by decide)⟩

/-- C6: for every fetcher name other than `basic`, `stealthy` and
`playwright`, `run_scrape` returns `success = false` with a descriptive
error naming the unknown fetcher, and never throws. -/
theorem C6_unknown_fetcher (env : Env) (now : String) (t : Nat)
    (url ft : String) (sel : Option String) (et : String) (hist : List Result)
    (h1 : ft ≠ "basic") (h2 : ft ≠ "stealthy") (h3 : ft ≠ "playwright") :
    (run_scrape env now t url ft sel et hist).1.success = false ∧
    (run_scrape env now t url ft sel et hist).1.error =
      some ("Unknown fetcher type: " ++ ft) := by
  simp [run_scrape, fetchFor, h1, h2, h3]

/-- Witness for C6 at the concrete fetcher name `bogus`. -/
theorem C6_witness :
    (run_scrape sampleEnv "ts" 5 "http://x" "bogus" none "full" []).1.success = false ∧
    (run_scrape sampleEnv "ts" 5 "http://x" "bogus" none "full" []).1.error =
      some ("Unknown fetcher type: " ++ "bogus") :=
  C6_unknown_fetcher sampleEnv "ts" 5 "http://x" "bogus" none "full" []
    (by decide) (by decide) (by decide)

/-- C7: a POST `/api/scrape` whose JSON body has no `url` key or an
empty `url` is answered with HTTP 400 (`URL is required`) and the
server state — in particular `SCRAPE_HISTORY` — is unchanged, so
`run_scrape` was not invoked. -/
theorem C7_missing_url (env : Env) (meta : Nat → String × Nat)
    (st : ServerState) (d : List (String × JVal))
    (h : d.lookup "url" = none ∨ d.lookup "url" = some (JVal.str "")) :
    do_POST env meta "/api/scrape" (some d) st = .ok (.urlRequired, st) ∧
    PostResp.statusCode .urlRequired = 400 := by
  have hurl : pyGet d "url" (.str "") = JVal.str "" := by
    rcases h with h | h <;> simp [pyGet, h]
  have hfalse : jTruthy (JVal.str "") = false := by decide
  constructor
  · simp [do_POST, hurl, hfalse]
  · rfl

/-- Witness for C7 at a body without a `url` key. -/
theorem C7_witness :
    do_POST sampleEnv sampleMeta "/api/scrape" (some [("fetcher", JVal.str "basic")])
      { history := [sampleResult] } = .ok (.urlRequired, { history := [sampleResult] }) ∧
    PostResp.statusCode .urlRequired = 400 :=
  C7_missing_url sampleEnv sampleMeta { history := [sampleResult] }
    [("fetcher", JVal.str "basic")] (Or.inl rfl)

/-- C8: a GET `/api/clear-history` empties the history, and an
immediately following GET `/api/history` (with any limit value the
handler parses) returns an empty history list and `total = 0`, whatever
the prior history content. -/
theorem C8_clear_then_read (st : ServerState) (ps ps2 : List (String × List String))
    (n : Int) (h : getLimit ps2 = .ok n) :
    do_GET "/api/clear-history" ps st = .ok (.cleared, { history := [] }) ∧
    do_GET "/api/history" ps2 { history := [] } =
      .ok (.history [] 0, { history := [] }) := by
  constructor
  · rfl
  · simp [do_GET, h, pyTail_nil]

/-- Witness for C8 starting from a non-empty history. -/
theorem C8_witness :
    do_GET "/api/clear-history" [] { history := [sampleResult] } =
      .ok (.cleared, { history := [] }) ∧
    do_GET "/api/history" [] { history := [] } =
      .ok (.history [] 0, { history := [] }) :=
  C8_clear_then_read { history := [sampleResult] } [] [] 50 rfl

/-- C9: an extract type outside the five recognised modes — and also
`css` with an empty or absent selector — is never rejected: when the
fetch returns a truthy page the scrape still reports `success = true`,
and the `data` payload is exactly the initial `\x7b"status": "success"\x7d`
dict with none of the extraction keys. -/
theorem C9_extract_type_unvalidated (env : Env) (now : String) (t : Nat)
    (url ft : String) (sel : Option String) (et : String) (hist : List Result)
    (p : Page) (hf : fetchFor env ft url = some (.ok (some p)))
    (het : (et ≠ "full" ∧ et ≠ "links" ∧ et ≠ "images" ∧ et ≠ "text" ∧ et ≠ "css") ∨
      (et = "css" ∧ truthyStr sel = false)) :
    (run_scrape env now t url ft sel et hist).1.success = true ∧
    (run_scrape env now t url ft sel et hist).1.data = some dataInit := by
  have hext : extractData p sel et = .ok dataInit := by
    rcases het with ⟨h1, h2, h3, h4, h5⟩ | ⟨rfl, hts⟩
    · simp [extractData, h1, h2, h3, h4, h5]
    · simp [extractData, hts]
  unfold run_scrape
  rw [hf]
  simp [scrapeBody, hext]

/-- Witness for C9 at the concrete extract type `bogus_mode`. -/
theorem C9_witness :
    (run_scrape sampleEnv "ts" 5 "http://x" "basic" none "bogus_mode" []).1.success = true ∧
    (run_scrape sampleEnv "ts" 5 "http://x" "basic" none "bogus_mode" []).1.data =
      some dataInit :=
  C9_extract_type_unvalidated sampleEnv "ts" 5 "http://x" "basic" none "bogus_mode" []
    samplePage rfl (Or.inl (by refine ⟨?_, ?_, ?_, ?_, ?_⟩ <;> decide))

/-- C10: GET `/api/history` with `limit=0` returns the entire history
(the tail slice `[-0:]` selects every element) with `total` the full
length, and for every positive parsed limit `N` it returns exactly the
last `min N total` entries in append order (the drop of all but the
last `N`), again with `total` the full history length. -/
theorem C10_history_limit (st : ServerState) (v : String) (N : Nat)
    (hv : pyInt? v = some (N : Int)) (hN : 0 < N) :
    do_GET "/api/history" [("limit", ["0"])] st =
      .ok (.history st.history st.history.length, st) ∧
    do_GET "/api/history" [("limit", [v])] st =
      .ok (.history (st.history.drop (st.history.length - N)) st.history.length, st) ∧
    (st.history.drop (st.history.length - N)).length = min N st.history.length ∧
    st.history.drop (st.history.length - N) <:+ st.history := by
  have h0 : getLimit [("limit", ["0"])] = .ok 0 := rfl
  have hvN : getLimit [("limit", [v])] = .ok (N : Int) := by
    unfold getLimit
    rw [show List.lookup "limit" [("limit", [v])] = some [v] from rfl]
    dsimp only
    rw [hv]
  refine ⟨?_, ?_, ?_, ?_⟩
  · simp [do_GET, h0, pyTail_zero]
  · simp [do_GET, hvN, pyTail_pos st.history N hN]
  · rw [List.length_drop]
    omega
  · exact List.drop_suffix _ _

/-- Witness for C10 on a three-entry history with `limit=2`. -/
theorem C10_witness :
    do_GET "/api/history" [("limit", ["0"])]
        { history := [sampleResult, sampleResult, sampleResult] } =
      .ok (.history [sampleResult, sampleResult, sampleResult] 3,
        { history := [sampleResult, sampleResult, sampleResult] }) ∧
    do_GET "/api/history" [("limit", ["2"])]
        { history := [sampleResult, sampleResult, sampleResult] } =
      .ok (.history ([sampleResult, sampleResult, sampleResult].drop 1) 3,
        { history := [sampleResult, sampleResult, sampleResult] }) := by
  have h := C10_history_limit { history := [sampleResult, sampleResult, sampleResult] }
    "2" 2 (by decide) (by decide)
  exact ⟨h.1, h.2.1⟩

/-- The `links` branch of `extractData` obeys its truncation limits. -/
theorem extractData_links_bounds (p : Page) (sel : Option String) (d : Data)
    (h : extractData p sel "links" = .ok d) :
    ∃ ll, d.links = some ll ∧ ll.length ≤ 50 ∧ ∀ x ∈ ll, x.text.length ≤ 100 := by
  rw [extractData] at h
  simp only [reduceIte, String.reduceEq] at h
  cases hcss : p.css "a[href]" with
  | error e => rw [hcss] at h; exact absurd h (by simp)
  | ok links =>
    rw [hcss] at h
    simp only [Except.ok.injEq] at h
    subst h
    refine ⟨_, rfl, ?_, ?_⟩
    · split
      · simp
      · simp only [List.length_map, List.length_take]
        omega
    · intro x hx
      split at hx
      · simp at hx
      · simp only [List.mem_map] at hx
        obtain ⟨a, _, rfl⟩ := hx
        exact pyStrTake_length_le a.text 100

/-- The `images` branch of `extractData` obeys its truncation limits. -/
theorem extractData_images_bounds (p : Page) (sel : Option String) (d : Data)
    (h : extractData p sel "images" = .ok d) :
    ∃ il, d.images = some il ∧ il.length ≤ 50 ∧ ∀ x ∈ il, x.alt.length ≤ 100 := by
  rw [extractData] at h
  simp only [reduceIte, String.reduceEq] at h
  cases hcss : p.css "img" with
  | error e => rw [hcss] at h; exact absurd h (by simp)
  | ok imgs =>
    rw [hcss] at h
    simp only [Except.ok.injEq] at h
    subst h
    refine ⟨_, rfl, ?_, ?_⟩
    · split
      · simp
      · simp only [List.length_map, List.length_take]
        omega
    · intro x hx
      split at hx
      · simp at hx
      · simp only [List.mem_map] at hx
        obtain ⟨a, _, rfl⟩ := hx
        exact pyStrTake_length_le (attribGet a "alt" "") 100

/-- The `css` branch of `extractData` obeys its truncation limits. -/
theorem extractData_css_bounds (p : Page) (sel : Option String) (d : Data)
    (h : extractData p sel "css" = .ok d) (el : List String)
    (hel : d.elements = some el) :
    el.length ≤ 30 ∧ ∀ x ∈ el, x.length ≤ 200 := by
  rw [extractData] at h
  simp only [reduceIte, String.reduceEq, true_and] at h
  by_cases hts : truthyStr sel = true
  · rw [if_pos hts] at h
    cases hcss : p.css (selOf sel) with
    | error e => rw [hcss] at h; exact absurd h (by simp)
    | ok elements =>
      rw [hcss] at h
      simp only [Except.ok.injEq] at h
      subst h
      simp only [Option.some.injEq] at hel
      subst hel
      constructor
      · split
        · simp
        · simp only [List.length_map, List.length_take]
          omega
      · intro x hx
        split at hx
        · simp at hx
        · simp only [List.mem_map] at hx
          obtain ⟨a, _, rfl⟩ := hx
          exact pyStrTake_length_le a.text 200
  · rw [if_neg hts] at h
    simp only [Except.ok.injEq] at h
    subst h
    exact absurd hel (by simp [dataInit])

/-- The `text` branch of `extractData` obeys its truncation limit. -/
theorem extractData_text_bounds (p : Page) (sel : Option String) (d : Data)
    (h : extractData p sel "text" = .ok d) :
    ∃ ts, d.text = some ts ∧ ts.length ≤ 5000 := by
  rw [extractData] at h
  simp only [reduceIte, String.reduceEq] at h
  cases hga : p.get_all_text with
  | error e => rw [hga] at h; exact absurd h (by simp)
  | ok allText =>
    rw [hga] at h
    simp only [Except.ok.injEq] at h
    subst h
    exact ⟨_, rfl, pyStrTake_length_le allText 5000⟩

/-- Whenever a scrape produces a `data` payload, that payload came from
`extractData` on the fetched page. -/
theorem run_scrape_data_of_extract (env : Env) (now : String) (t : Nat)
    (url ft : String) (sel : Option String) (et : String) (hist : List Result)
    (d : Data) (h : (run_scrape env now t url ft sel et hist).1.data = some d) :
    ∃ p : Page, fetchFor env ft url = some (.ok (some p)) ∧
      extractData p sel et = .ok d := by
  unfold run_scrape at h
  cases hf : fetchFor env ft url with
  | none => rw [hf] at h; exact absurd h (by simp)
  | some fo =>
    rw [hf] at h
    dsimp only at h
    cases hb : scrapeBody fo sel et with
    | error e => rw [hb] at h; exact absurd h (by simp)
    | ok od =>
      cases od with
      | none => rw [hb] at h; exact absurd h (by simp)
      | some dd =>
        rw [hb] at h
        have hd : dd = d := by simpa using h
        unfold scrapeBody at hb
        cases fo with
        | error e => exact absurd hb (by simp)
        | ok op =>
          cases op with
          | none => exact absurd hb (by simp)
          | some p =>
            refine ⟨p, rfl, ?_⟩
            dsimp only at hb
            cases hext : extractData p sel et with
            | error e =>
              rw [hext] at hb
              simp at hb
            | ok d2 =>
              rw [hext] at hb
              simp only [Except.ok.injEq, Option.some.injEq] at hb
              rw [hb, hd]

/-- C5: every produced `data` payload obeys the hard truncation limits
of its extract mode: at most 50 link records with link text cut to 100
characters, at most 50 image records with alt text cut to 100
characters, at most 30 CSS elements cut to 200 characters, and at most
5000 characters of page text. -/
theorem C5_truncation_limits (env : Env) (now : String) (t : Nat)
    (url ft : String) (sel : Option String) (hist : List Result) :
    (∀ d, (run_scrape env now t url ft sel "links" hist).1.data = some d →
      ∃ ll, d.links = some ll ∧ ll.length ≤ 50 ∧ ∀ x ∈ ll, x.text.length ≤ 100) ∧
    (∀ d, (run_scrape env now t url ft sel "images" hist).1.data = some d →
      ∃ il, d.images = some il ∧ il.length ≤ 50 ∧ ∀ x ∈ il, x.alt.length ≤ 100) ∧
    (∀ d, (run_scrape env now t url ft sel "css" hist).1.data = some d →
      ∀ el, d.elements = some el → el.length ≤ 30 ∧ ∀ x ∈ el, x.length ≤ 200) ∧
    (∀ d, (run_scrape env now t url ft sel "text" hist).1.data = some d →
      ∃ ts, d.text = some ts ∧ ts.length ≤ 5000) := by
  refine ⟨fun d h => ?_, fun d h => ?_, fun d h el hel => ?_, fun d h => ?_⟩
  · obtain ⟨p, _, hext⟩ := run_scrape_data_of_extract env now t url ft sel "links" hist d h
    exact extractData_links_bounds p sel d hext
  · obtain ⟨p, _, hext⟩ := run_scrape_data_of_extract env now t url ft sel "images" hist d h
    exact extractData_images_bounds p sel d hext
  · obtain ⟨p, _, hext⟩ := run_scrape_data_of_extract env now t url ft sel "css" hist d h
    exact extractData_css_bounds p sel d hext el hel
  · obtain ⟨p, _, hext⟩ := run_scrape_data_of_extract env now t url ft sel "text" hist d h
    exact extractData_text_bounds p sel d hext

/-- The `data` payload the sample page yields in `links` mode. -/
def sampleLinksData : Data :=
  { dataInit with links := some [{ href := "http://example.com/a", text := "Example Domain" }] }

/-- Witness for C5 at a concrete `links`-mode scrape. -/
theorem C5_witness :
    (run_scrape sampleEnv "ts" 1 "http://x" "basic" none "links" []).1.data =
      some sampleLinksData ∧
    ∃ ll, sampleLinksData.links = some ll ∧ ll.length ≤ 50 ∧
      ∀ x ∈ ll, x.text.length ≤ 100 :=
  ⟨rfl, (C5_truncation_limits sampleEnv "ts" 1 "http://x" "basic" none []).1 sampleLinksData rfl⟩

/-- C3 counterexample: a GET `/api/history` request with the
non-integer limit value `abc` makes `int(...)` at line 248 raise a
`ValueError` out of the request handler — it is not converted into a
structured error response. -/
theorem C3_counterexample :
    do_GET "/api/history" [("limit", ["abc"])] { history := [] } =
      Except.error (Exn.mk "ValueError" "invalid literal for int() with base 10: abc") := by
  rfl

/-- C3 amended: every failure of the kinds the handler checks for —
malformed request JSON, missing URL on `/api/scrape`, unknown route,
unknown fetcher name, a library exception during a scrape — is
converted into a structured response with status 400/404 or an embedded
error string, and the handler does not raise for those; however a
non-integer `limit` query value on GET `/api/history` (and a non-string
entry in the `urls` list of POST `/api/batch-scrape`) raises an
exception out of the handler method instead of producing a response. -/
theorem C3_amended_error_handling (env : Env) (meta : Nat → String × Nat)
    (st : ServerState) (d : List (String × JVal)) (params : List (String × List String))
    (path : String) (url ft now : String) (sel : Option String) (et : String)
    (t : Nat) (hist : List Result) (v : JVal) :
    (do_POST env meta path none st = .ok (.invalidJson, st) ∧
      PostResp.statusCode .invalidJson = 400) ∧
    (jTruthy (pyGet d "url" (.str "")) = false →
      do_POST env meta "/api/scrape" (some d) st = .ok (.urlRequired, st) ∧
      PostResp.statusCode .urlRequired = 400) ∧
    (path ≠ "/api/scrape" → path ≠ "/api/batch-scrape" →
      do_POST env meta path (some d) st = .ok (.notFound, st) ∧
      PostResp.statusCode .notFound = 404) ∧
    (path ≠ "/" → path ≠ "/index.html" → path ≠ "/api/status" →
      path ≠ "/api/history" → path ≠ "/api/presets" → path ≠ "/api/clear-history" →
      do_GET path params st = .ok (.notFound, st) ∧
      GetResp.statusCode .notFound = 404) ∧
    (ft ≠ "basic" → ft ≠ "stealthy" → ft ≠ "playwright" →
      (run_scrape env now t url ft sel et hist).1.error =
        some ("Unknown fetcher type: " ++ ft)) ∧
    (∀ e, env.basicFetch url = .error e →
      (run_scrape env now t url "basic" sel et hist).1.success = false ∧
      (run_scrape env now t url "basic" sel et hist).1.error = some (errString e)) ∧
    (∀ e, getLimit params = .error e →
      do_GET "/api/history" params st = .error e) ∧
    (∀ e, jStrip v = .error e → ∀ rest k,
      batchLoop env meta (asStr (pyGet d "fetcher" (.str "basic")))
        (asStr (pyGet d "extract_type" (.str "full"))) (v :: rest) k st = .error e) := by
  refine ⟨⟨rfl, rfl⟩, ?_, ?_, ?_, ?_, ?_, ?_, ?_⟩
  · intro hurl
    exact ⟨by simp [do_POST, hurl], rfl⟩
  · intro h1 h2
    exact ⟨by simp [do_POST, h1, h2], rfl⟩
  · intro h1 h2 h3 h4 h5 h6
    exact ⟨by simp [do_GET, h1, h2, h3, h4, h5, h6], rfl⟩
  · intro h1 h2 h3
    simp [run_scrape, fetchFor, h1, h2, h3]
  · intro e he
    have hf : fetchFor env "basic" url = some (env.basicFetch url) := rfl
    have hb : scrapeBody (env.basicFetch url) sel et = .error e := by
      rw [he]; rfl
    exact run_scrape_catch env now t url "basic" sel et hist (env.basicFetch url) e hf hb
  · intro e he
    simp [do_GET, he]
  · intro e he rest k
    simp [batchLoop, he]

/-- Witness for C3 amended at concrete bad requests. -/
theorem C3_amended_witness :
    (do_POST sampleEnv sampleMeta "/api/scrape" (some [("url", JVal.str "")])
        { history := [] } = .ok (.urlRequired, { history := [] })) ∧
    (do_POST sampleEnv sampleMeta "/api/nope" (some []) { history := [] } =
      .ok (.notFound, { history := [] })) ∧
    (do_GET "/nope" [] { history := [] } = .ok (.notFound, { history := [] })) ∧
    do_GET "/api/history" [("limit", ["abc"])] { history := [] } =
      Except.error (Exn.mk "ValueError" "invalid literal for int() with base 10: abc") := by
  have h := C3_amended_error_handling sampleEnv sampleMeta { history := [] } []
    [("limit", ["abc"])] "/api/nope" "http://x" "basic" "ts" none "full" 1 [] JVal.null
  refine ⟨?_, ?_, ?_, ?_⟩
  · exact ((C3_amended_error_handling sampleEnv sampleMeta { history := [] }
      [("url", JVal.str "")] [] "/x" "u" "basic" "ts" none "full" 1 [] JVal.null).2.1
      (by decide)).1
  · exact (h.2.2.1 (by decide) (by decide)).1
  · exact ((C3_amended_error_handling sampleEnv sampleMeta { history := [] } [] []
      "/nope" "u" "basic" "ts" none "full" 1 [] JVal.null).2.2.2.1
      (by decide) (by decide) (by decide) (by decide) (by decide) (by decide)).1
  · exact h.2.2.2.2.2.2.1 (Exn.mk "ValueError" "invalid literal for int() with base 10: abc") rfl

/-- The batch loop on a list of string entries succeeds, produces one
result per entry in order, and the `i`-th result is the single-scrape
result of the `i`-th (stripped) URL with the `i`-th wall-clock pair. -/
theorem batchLoop_ok (env : Env) (meta : Nat → String × Nat) (f et : String)
    (l : List JVal) :
    ∀ (k : Nat) (st : ServerState), (∀ v ∈ l, ∃ s, v = JVal.str s) →
      ∃ rs st', batchLoop env meta f et l k st = .ok (rs, st') ∧
        rs.length = l.length ∧
        ∀ (i : Nat) (hi : i < rs.length) (hl : i < l.length),
          ∃ s, l.get ⟨i, hl⟩ = JVal.str s ∧
            rs.get ⟨i, hi⟩ =
              (run_scrape env (meta (k + i)).1 (meta (k + i)).2 (pyStrip s)
                f none et []).1 := by
  induction l with
  | nil =>
    intro k st _
    exact ⟨[], st, rfl, rfl, fun i hi hl => absurd hl (Nat.not_lt_zero i)⟩
  | cons u rest ih =>
    intro k st hstr
    obtain ⟨s, rfl⟩ := hstr u (List.mem_cons_self u rest)
    obtain ⟨rs, st', hbl, hlen, hidx⟩ := ih (k + 1)
      { history := (run_scrape env (meta k).1 (meta k).2 (pyStrip s) f none et st.history).2 }
      (fun v hv => hstr v (List.mem_cons_of_mem _ hv))
    refine ⟨(run_scrape env (meta k).1 (meta k).2 (pyStrip s) f none et st.history).1 :: rs,
      st', ?_, by simp [hlen], ?_⟩
    · rw [batchLoop]
      dsimp only [jStrip]
      rw [hbl]
    · intro i hi hl
      cases i with
      | zero =>
        refine ⟨s, rfl, ?_⟩
        show (run_scrape env (meta k).1 (meta k).2 (pyStrip s) f none et st.history).1 = _
        rw [Nat.add_zero]
        exact run_scrape_fst_hist_irrel env (meta k).1 (meta k).2 (pyStrip s) f none et
          st.history []
      | succ j =>
        have hj : j < rs.length := by simpa using hi
        have hjl : j < rest.length := by simpa using hl
        obtain ⟨s', hgs, hrs⟩ := hidx j hj hjl
        refine ⟨s', ?_, ?_⟩
        · simpa using hgs
        · have harith : k + 1 + j = k + (j + 1) := by omega
          rw [harith] at hrs
          simpa using hrs

/-- C4: POST `/api/batch-scrape` applies the single-scrape operation
sequentially to at most the first 10 entries of the supplied `urls`
list — `min 10 (length urls)` of them, even when more are supplied —
and answers with the list of the individual `run_scrape` results in the
same order, one result per processed URL. -/
theorem C4_batch_first_ten (env : Env) (meta : Nat → String × Nat)
    (st : ServerState) (d : List (String × JVal)) (l : List JVal)
    (hurls : pyGet d "urls" (.arr []) = JVal.arr l)
    (hstr : ∀ v ∈ l, ∃ s, v = JVal.str s) :
    ∃ rs st', do_POST env meta "/api/batch-scrape" (some d) st =
        .ok (.batchResults rs, st') ∧
      rs.length = (l.take 10).length ∧
      (l.take 10).length = min 10 l.length ∧
      ∀ (i : Nat) (hi : i < rs.length) (hl : i < (l.take 10).length),
        ∃ s, (l.take 10).get ⟨i, hl⟩ = JVal.str s ∧
          rs.get ⟨i, hi⟩ = (run_scrape env (meta i).1 (meta i).2 (pyStrip s)
            (asStr (pyGet d "fetcher" (.str "basic"))) none
            (asStr (pyGet d "extract_type" (.str "full"))) []).1 := by
  obtain ⟨rs, st', hbl, hlen, hidx⟩ := batchLoop_ok env meta
    (asStr (pyGet d "fetcher" (.str "basic")))
    (asStr (pyGet d "extract_type" (.str "full"))) (l.take 10) 0 st
    (fun v hv => hstr v (List.take_subset 10 l hv))
  refine ⟨rs, st', ?_, hlen, List.length_take 10 l, ?_⟩
  · unfold do_POST
    dsimp only
    simp only [String.reduceEq, reduceIte]
    rw [hurls]
    dsimp only [urlsList]
    rw [hbl]
  · intro i hi hl
    obtain ⟨s, hg, hr⟩ := hidx i hi hl
    exact ⟨s, hg, by simpa using hr⟩

/-- A batch request body with twelve URLs. -/
def batchBody : List (String × JVal) :=
  [("urls", JVal.arr [JVal.str "http://u1", JVal.str "http://u2", JVal.str "http://u3",
    JVal.str "http://u4", JVal.str "http://u5", JVal.str "http://u6", JVal.str "http://u7",
    JVal.str "http://u8", JVal.str "http://u9", JVal.str "http://u10", JVal.str "http://u11",
    JVal.str "http://u12"])]

/-- The list of URL values in `batchBody`. -/
def batchUrls : List JVal :=
  [JVal.str "http://u1", JVal.str "http://u2", JVal.str "http://u3",
    JVal.str "http://u4", JVal.str "http://u5", JVal.str "http://u6", JVal.str "http://u7",
    JVal.str "http://u8", JVal.str "http://u9", JVal.str "http://u10", JVal.str "http://u11",
    JVal.str "http://u12"]

/-- Witness for C4 at a concrete twelve-URL batch request. -/
theorem C4_witness :
    ∃ rs st', do_POST sampleEnv sampleMeta "/api/batch-scrape" (some batchBody)
        { history := [] } = .ok (.batchResults rs, st') ∧
      rs.length = (batchUrls.take 10).length ∧
      (batchUrls.take 10).length = min 10 batchUrls.length ∧
      ∀ (i : Nat) (hi : i < rs.length) (hl : i < (batchUrls.take 10).length),
        ∃ s, (batchUrls.take 10).get ⟨i, hl⟩ = JVal.str s ∧
          rs.get ⟨i, hi⟩ = (run_scrape sampleEnv (sampleMeta i).1 (sampleMeta i).2
            (pyStrip s) (asStr (pyGet batchBody "fetcher" (.str "basic"))) none
            (asStr (pyGet batchBody "extract_type" (.str "full"))) []).1 :=
  C4_batch_first_ten sampleEnv sampleMeta { history := [] } batchBody batchUrls rfl
    (by
      intro v hv
      simp only [batchUrls, List.mem_cons, List.not_mem_nil, or_false] at hv
      rcases hv with rfl | rfl | rfl | rfl | rfl | rfl | rfl | rfl | rfl | rfl | rfl | rfl <;>
        exact ⟨_, rfl⟩)

example : pyTail [1, 2, 3, 4, 5] 0 = [1, 2, 3, 4, 5] := by decide
example : pyTail [1, 2, 3, 4, 5] 2 = [4, 5] := by decide
example : pyTail [1, 2, 3] 7 = [1, 2, 3] := by decide
example : pyInt? "  42 " = some 42 := by decide
example : pyInt? "abc" = none := by decide
example : pyInt? "-0" = some 0 := by decide
example : pyStrTake "hello" 3 = "hel" := by decide
